import Mathlib

/-!
Verification development for the UniSwap campus-marketplace repository.

The repository consists of a React presentation layer
(`src/components/SellItemModal.tsx`, `src/components/EditItemModal.tsx`,
`src/App.tsx`, `src/lib/supabase.ts`) and two SQL migrations installing
row-level-security policies on the `products` table
(`supabase/migrations/20260213160631_create_products_table.sql` and
`supabase/migrations/20260215193000_enforce_owner_based_updates.sql`).

This file shallowly embeds, in Lean:
  * the JavaScript string operations used by the phone-normalization
    helper `normalizePhone` of `SellItemModal.tsx`, working on `List Char`;
  * the row-level-security policy set produced by running the two
    migrations in order, together with PostgreSQL's evaluation rule for
    permissive policies (an operation is allowed when some applicable
    policy's predicates pass; predicates that evaluate to SQL NULL do not
    pass);
  * the listing-form state machine of `SellItemModal.tsx` (step
    navigation, submit payload construction and submit outcome) and the
    save payload of `EditItemModal.tsx`.

Theorems about these definitions settle the specification claims.
-/

namespace UniSwap

/-! ### JavaScript string primitives, on `List Char`

`String.prototype.trim`, `replace(/\D/g, '')`, `replace(/^0+/, '')`,
`replace('+', '')` (first occurrence only), `startsWith`. Whitespace is
modelled by the ASCII whitespace characters. -/

/-- ASCII whitespace, the characters `String.prototype.trim` removes that
can occur in the inputs of interest. -/
def isSpaceChar (c : Char) : Bool :=
  c = ' ' || c = '\t' || c = '\n' || c = '\r'

/-- The decimal digit class `[0-9]`, i.e. JavaScript's `\d`. -/
def isDigitChar (c : Char) : Bool :=
  '0' ≤ c && c ≤ '9'

/-- `s.trim()`: drop whitespace from both ends. -/
def jsTrim (l : List Char) : List Char :=
  ((l.dropWhile isSpaceChar).reverse.dropWhile isSpaceChar).reverse

/-- `s.replace(/\D/g, '')`: keep only the decimal digits. -/
def stripNonDigits (l : List Char) : List Char :=
  l.filter isDigitChar

/-- `s.replace(/^0+/, '')`: drop leading zeros. -/
def dropLeadingZeros (l : List Char) : List Char :=
  l.dropWhile (fun c => c = '0')

/-- `s.replace('+', '')` with a plain-string pattern removes only the
first occurrence of `'+'`. -/
def removeFirstPlus : List Char → List Char
  | [] => []
  | c :: rest => if c = '+' then rest else c :: removeFirstPlus rest

/-- Removing a leading `'+'` only (the spec's "the code with its leading
`+` removed"). -/
def dropLeadingPlus : List Char → List Char
  | '+' :: rest => rest
  | l => l

/-- `s.startsWith('+')`. -/
def startsWithPlus : List Char → Bool
  | c :: _ => c = '+'
  | [] => false

/-! ### Phone normalization (`SellItemModal.tsx`, lines 31-47) -/

/-- `normalizePhone` from `SellItemModal.tsx`:

```
const normalizePhone = (countryCode: string, rawPhone: string) => {
  const trimmed = rawPhone.trim();
  if (!trimmed) return '';
  if (trimmed.startsWith('+')) {
    return `+${trimmed.replace(/\D/g, '')}`;
  }
  const digits = trimmed.replace(/\D/g, '').replace(/^0+/, '');
  const code = countryCode.replace('+', '');
  if (digits.startsWith(code)) {
    return `+${digits}`;
  }
  return `${countryCode}${digits}`;
};
```

The source's `const` bindings (`trimmed`, `digits`, `code`) are inlined
here; each occurrence below is the same expression. -/
def normalizePhone (countryCode rawPhone : List Char) : List Char :=
  if (jsTrim rawPhone).isEmpty then []
  else if startsWithPlus (jsTrim rawPhone) then '+' :: stripNonDigits (jsTrim rawPhone)
  else if (removeFirstPlus countryCode).isPrefixOf
      (dropLeadingZeros (stripNonDigits (jsTrim rawPhone))) then
    '+' :: dropLeadingZeros (stripNonDigits (jsTrim rawPhone))
  else countryCode ++ dropLeadingZeros (stripNonDigits (jsTrim rawPhone))

/-- The five-step normalization algorithm exactly as the specification
words it (§4.2): (1) trim, empty stays empty; (2) a value starting with
`+` becomes `+` followed by its digits; (3) otherwise extract digits and
strip leading zeros; (4) if the digit string already starts with the
country code's digits — the code with its *leading* `+` removed — prepend
`+`; (5) otherwise prepend the full country code. This definition exists
to be compared with `normalizePhone`, which was translated from the
source. -/
def normalizePhoneSpecModel (countryCode rawPhone : List Char) : List Char :=
  if (jsTrim rawPhone).isEmpty then []
  else if startsWithPlus (jsTrim rawPhone) then '+' :: stripNonDigits (jsTrim rawPhone)
  else if (dropLeadingPlus countryCode).isPrefixOf
      (dropLeadingZeros (stripNonDigits (jsTrim rawPhone))) then
    '+' :: dropLeadingZeros (stripNonDigits (jsTrim rawPhone))
  else countryCode ++ dropLeadingZeros (stripNonDigits (jsTrim rawPhone))

/-- The selectable country codes (`SellItemModal.tsx`, line 20):
`['+91', '+1', '+44', '+61', '+81']`. The `countryCode` component of the
form state is always drawn from this list: it starts as `'+91'` and is
only ever set from the select element whose options are exactly this
list. -/
def countryCodes : List (List Char) :=
  ["+91".data, "+1".data, "+44".data, "+61".data, "+81".data]

/-! ### Row-level-security policy model (the two SQL migrations)

The `products` table has row-level security enabled by both migrations.
Its policies reference only the `owner_id` column (a nullable `uuid`) and
`auth.uid()` (the caller's account id, SQL NULL for an unauthenticated
caller). PostgreSQL policies here are all permissive: an operation is
allowed when some policy for that command, applicable to the caller's
role, has its predicate evaluate to true; a predicate evaluating to SQL
NULL (e.g. `owner_id = auth.uid()` with a NULL on either side) does not
pass. With no applicable policy the operation is denied. -/

/-- Opaque account identifiers (`uuid` values of `auth.users`). -/
abbrev Uuid := Nat

/-- The caller of a data-store operation: either unauthenticated (the
`anon` role, `auth.uid()` is NULL) or authenticated with an account id. -/
inductive Caller where
  | anon : Caller
  | authenticated : Uuid → Caller
deriving DecidableEq

/-- The SQL command a policy is `for`. -/
inductive Command where
  | selectCmd : Command
  | insertCmd : Command
  | updateCmd : Command
  | deleteCmd : Command
deriving DecidableEq

/-- The role list a policy applies `to`: omitted (`PUBLIC`, every role,
including unauthenticated callers) or the `authenticated` role. -/
inductive Role where
  | publicRole : Role
  | authenticatedRole : Role
deriving DecidableEq

/-- The only predicate expressions occurring in the migrations:
`true` and `owner_id = auth.uid()`. -/
inductive PolicyExpr where
  | exprTrue : PolicyExpr
  | ownerEqUid : PolicyExpr
deriving DecidableEq

/-- The texts handed to the storage layer for the columns of a `products`
row that the client code fills in. `price` is kept as the raw text the
form holds; the source converts it with `parseFloat`/`Number`, a
floating-point conversion the policies and claims never look at. -/
structure ProductWrite where
  title : List Char
  description : List Char
  category : List Char
  condition : List Char
  priceText : List Char
  image_url : List Char
  seller_name : List Char
  seller_phone : List Char
deriving DecidableEq

/-- A stored `products` row, as far as the policies can see it: the
client-supplied columns plus the nullable `owner_id`. (`id` and
`created_at` are server-generated and referenced by no policy.) -/
structure ProductRow where
  cols : ProductWrite
  owner_id : Option Uuid
deriving DecidableEq

/-- Evaluate a policy predicate against a caller and a row, with SQL
three-valued logic collapsed to "passes / does not pass": `owner_id =
auth.uid()` passes exactly when both sides are non-NULL and equal. -/
def evalExpr : PolicyExpr → Caller → ProductRow → Bool
  | PolicyExpr.exprTrue, _, _ => true
  | PolicyExpr.ownerEqUid, Caller.anon, _ => false
  | PolicyExpr.ownerEqUid, Caller.authenticated uid, row =>
      match row.owner_id with
      | some o => o = uid
      | none => false

/-- One `create policy` statement: name, command, role list, `using`
predicate (checked against existing rows) and `with check` predicate
(checked against new rows). For a select policy only `using` matters; for
an insert policy only `with check`; the unused slot is `true`. -/
structure Policy where
  name : String
  cmd : Command
  role : Role
  usingPred : PolicyExpr
  checkPred : PolicyExpr
deriving DecidableEq

/-- Does a policy's role list cover the caller? `PUBLIC` covers everyone;
`authenticated` covers only authenticated callers. -/
def roleApplies : Role → Caller → Bool
  | Role.publicRole, _ => true
  | Role.authenticatedRole, Caller.authenticated _ => true
  | Role.authenticatedRole, Caller.anon => false

/-- SELECT is allowed when some applicable select policy's `using`
predicate passes on the row. -/
def allowSelect (ps : List Policy) (c : Caller) (row : ProductRow) : Bool :=
  ps.any fun p =>
    p.cmd = Command.selectCmd && roleApplies p.role c && evalExpr p.usingPred c row

/-- INSERT of a new row is allowed when some applicable insert policy's
`with check` predicate passes on the new row. -/
def allowInsert (ps : List Policy) (c : Caller) (newRow : ProductRow) : Bool :=
  ps.any fun p =>
    p.cmd = Command.insertCmd && roleApplies p.role c && evalExpr p.checkPred c newRow

/-- UPDATE of an existing row to a new row is allowed when some applicable
update policy's `using` predicate passes on the existing row and some
applicable update policy's `with check` predicate passes on the new row
(PostgreSQL combines permissive policies' `using` clauses with OR, and
likewise their `with check` clauses). -/
def allowUpdate (ps : List Policy) (c : Caller) (oldRow newRow : ProductRow) : Bool :=
  (ps.any fun p =>
    p.cmd = Command.updateCmd && roleApplies p.role c && evalExpr p.usingPred c oldRow) &&
  (ps.any fun p =>
    p.cmd = Command.updateCmd && roleApplies p.role c && evalExpr p.checkPred c newRow)

/-- DELETE is allowed when some applicable delete policy's `using`
predicate passes on the row. No migration creates one, so deletes are
denied by default. -/
def allowDelete (ps : List Policy) (c : Caller) (row : ProductRow) : Bool :=
  ps.any fun p =>
    p.cmd = Command.deleteCmd && roleApplies p.role c && evalExpr p.usingPred c row

/-- `drop policy if exists <name>`: remove the policy with that name, a
no-op when none exists. -/
def dropPolicyIfExists (nm : String) (ps : List Policy) : List Policy :=
  ps.filter fun p => p.name ≠ nm

/-- Migration `20260213160631_create_products_table.sql`: creates the
table, enables row-level security, and creates two policies with no `to`
clause (hence `PUBLIC`):
`"Anyone can view products" for select using (true)` and
`"Anyone can create products" for insert with check (true)`. -/
def migration1Policies : List Policy :=
  [ { name := "Anyone can view products", cmd := Command.selectCmd,
      role := Role.publicRole, usingPred := PolicyExpr.exprTrue,
      checkPred := PolicyExpr.exprTrue },
    { name := "Anyone can create products", cmd := Command.insertCmd,
      role := Role.publicRole, usingPred := PolicyExpr.exprTrue,
      checkPred := PolicyExpr.exprTrue } ]

/-- Migration `20260215193000_enforce_owner_based_updates.sql`: adds the
`owner_id` column, re-enables row-level security, drops (if they exist)
the three policies named "Authenticated can view/create/update products",
then creates them: select `to authenticated using (true)`, insert
`to authenticated with check (owner_id = auth.uid())`, update
`to authenticated using (owner_id = auth.uid()) with check (owner_id =
auth.uid())`. It does not drop the two "Anyone can ..." policies of the
first migration. -/
def applyMigration2 (ps : List Policy) : List Policy :=
  (dropPolicyIfExists "Authenticated can update products"
    (dropPolicyIfExists "Authenticated can create products"
      (dropPolicyIfExists "Authenticated can view products" ps))) ++
  [ { name := "Authenticated can view products", cmd := Command.selectCmd,
      role := Role.authenticatedRole, usingPred := PolicyExpr.exprTrue,
      checkPred := PolicyExpr.exprTrue },
    { name := "Authenticated can create products", cmd := Command.insertCmd,
      role := Role.authenticatedRole, usingPred := PolicyExpr.exprTrue,
      checkPred := PolicyExpr.ownerEqUid },
    { name := "Authenticated can update products", cmd := Command.updateCmd,
      role := Role.authenticatedRole, usingPred := PolicyExpr.ownerEqUid,
      checkPred := PolicyExpr.ownerEqUid } ]

/-- The policy set in force after running both migrations in order. -/
def productPolicies : List Policy :=
  applyMigration2 migration1Policies

/-! ### Listing form controller (`SellItemModal.tsx`)

The modal's state is `step` (1..3), `formData` (eight text fields),
`countryCode`, and the selected image file (only its presence matters
here). JavaScript string truthiness makes the `canProceedStepN` guards
"all listed fields are non-empty". -/

/-- The `formData` fields of `SellItemModal.tsx` (and the identically
shaped `formData` of `EditItemModal.tsx`). All are strings in the source;
`price` is the raw text of the number input. -/
structure FormFields where
  title : List Char
  description : List Char
  category : List Char
  condition : List Char
  price : List Char
  imageUrl : List Char
  sellerName : List Char
  sellerPhone : List Char
deriving DecidableEq

/-- The initial `formData` of `SellItemModal.tsx` (lines 54-63), also
what the state is reset to after a successful submit (lines 128-137). -/
def defaultFormFields : FormFields :=
  { title := [], description := [], category := "Books".data,
    condition := "Used".data, price := [], imageUrl := [],
    sellerName := [], sellerPhone := [] }

/-- The sell modal's state: `step`, `formData`, `countryCode`, and
whether an image file is selected (`imageFile !== null`). -/
structure SellState where
  step : Nat
  form : FormFields
  countryCode : List Char
  imageSelected : Bool
deriving DecidableEq

/-- `canProceedStep1 = formData.title && formData.description &&
formData.category` (line 151): truthy iff all three are non-empty. -/
def canProceedStep1 (f : FormFields) : Bool :=
  !f.title.isEmpty && !f.description.isEmpty && !f.category.isEmpty

/-- `canProceedStep2 = formData.price && formData.condition` (line 152). -/
def canProceedStep2 (f : FormFields) : Bool :=
  !f.price.isEmpty && !f.condition.isEmpty

/-- `canProceedStep3 = formData.sellerName && formData.sellerPhone`
(line 153). -/
def canProceedStep3 (f : FormFields) : Bool :=
  !f.sellerName.isEmpty && !f.sellerPhone.isEmpty

/-- The Next button (rendered only while `step < 3`, line 418) is
disabled when `(step === 1 && !canProceedStep1) || (step === 2 &&
!canProceedStep2)` (line 421). -/
def nextDisabled (s : SellState) : Bool :=
  (s.step = 1 && !canProceedStep1 s.form) || (s.step = 2 && !canProceedStep2 s.form)

/-- Effect of a click on the Next button: `setStep(step + 1)` when the
button exists (`step < 3`) and is enabled; a disabled or absent button
leaves the state unchanged. -/
def clickNext (s : SellState) : SellState :=
  if s.step < 3 && !nextDisabled s then { s with step := s.step + 1 } else s

/-- Effect of a click on the Back button: rendered exactly when
`step > 1` (line 406), and always enabled, doing `setStep(step - 1)`. -/
def clickBack (s : SellState) : SellState :=
  if 1 < s.step then { s with step := s.step - 1 } else s

/-- The Publish button (step 3) is disabled when `!canProceedStep3 ||
loading` (line 430); outside a pending submit, submission is possible
exactly when `canProceedStep3`. -/
def publishEnabled (f : FormFields) : Bool :=
  canProceedStep3 f

/-- The image URL used for the insert: the uploaded file's public URL
when a file was uploaded, otherwise `formData.imageUrl.trim()`
(`handleSubmit`, lines 87-109). -/
def resolveImageUrl (f : FormFields) (uploadedUrl : Option (List Char)) : List Char :=
  match uploadedUrl with
  | some url => url
  | none => jsTrim f.imageUrl

/-- The object `handleSubmit` passes to `supabase.from('products')
.insert([...])` (lines 113-124): the form fields, with `seller_phone`
re-normalized at submit time and `image_url` defaulted to `''` when
falsy. The object literal contains *no* `owner_id` key. -/
def sellInsertWrite (countryCode : List Char) (f : FormFields)
    (uploadedUrl : Option (List Char)) : ProductWrite :=
  { title := f.title, description := f.description, category := f.category,
    condition := f.condition, priceText := f.price,
    image_url := resolveImageUrl f uploadedUrl,
    seller_name := f.sellerName,
    seller_phone := normalizePhone countryCode f.sellerPhone }

/-- The row the insert produces, as the policies see it: since the insert
record supplies no `owner_id`, the column takes its default, SQL NULL. -/
def sellInsertRow (countryCode : List Char) (f : FormFields)
    (uploadedUrl : Option (List Char)) : ProductRow :=
  { cols := sellInsertWrite countryCode f uploadedUrl, owner_id := none }

/-- Outcome of the (asynchronous) storage interaction in `handleSubmit`:
the storage upload may fail, the insert may return an error, or the
insert succeeds. -/
inductive StorageOutcome where
  | uploadFailed : List Char → StorageOutcome
  | insertFailed : List Char → StorageOutcome
  | succeeded : StorageOutcome
deriving DecidableEq

/-- What the user observes after `handleSubmit` finishes: the resulting
modal state, whether a blocking alert was shown, and whether the modal
was closed (`onClose`; `onSuccess` fires exactly when it closes). -/
structure SubmitResult where
  state : SellState
  alertShown : Bool
  modalClosed : Bool
deriving DecidableEq

/-- The state a successful submit resets to (lines 128-140):
`formData` back to its defaults, `imageFile` to `null`, `countryCode` to
`'+91'`, `step` to 1. -/
def resetSellState : SellState :=
  { step := 1, form := defaultFormFields, countryCode := "+91".data,
    imageSelected := false }

/-- Control flow of `handleSubmit` (lines 84-149): any thrown error
(upload failure or insert error) reaches the `catch`, which shows an
alert and changes no form state; on success the state is reset, `onSuccess`
runs and the modal closes. (`loading` is transiently true and back to
false on every path, via `finally`.) -/
def handleSubmitResult (s : SellState) (o : StorageOutcome) : SubmitResult :=
  match o with
  | StorageOutcome.uploadFailed _ => { state := s, alertShown := true, modalClosed := false }
  | StorageOutcome.insertFailed _ => { state := s, alertShown := true, modalClosed := false }
  | StorageOutcome.succeeded =>
      { state := resetSellState, alertShown := false, modalClosed := true }

/-! ### Edit modal (`EditItemModal.tsx`) -/

/-- The payload `handleSave` passes to `supabase.from('products')
.update(payload).eq('id', product.id)` (lines 44-53): every field is
taken verbatim from the edit form state; in particular `seller_phone :=
formData.sellerPhone` with no normalization applied anywhere in
`EditItemModal.tsx`. -/
def editSaveWrite (f : FormFields) : ProductWrite :=
  { title := f.title, description := f.description, category := f.category,
    condition := f.condition, priceText := f.price,
    image_url := f.imageUrl, seller_name := f.sellerName,
    seller_phone := f.sellerPhone }

/-! ### Concrete sample data used for evaluations -/

/-- A concrete set of column texts for a listing row, used to evaluate
the policy set at specific inputs. -/
def sampleWrite : ProductWrite :=
  { title := "Casio FX-991EX".data, description := "Scientific calculator".data,
    category := "Electronics".data, condition := "Used".data,
    priceText := "1200".data, image_url := [], seller_name := "Rahul".data,
    seller_phone := "+919876543210".data }

/-- A concrete edit-modal form state whose seller phone, "98765 43210",
is not in normalized form (it contains a space and lacks the dial code). -/
def editFormExample : FormFields :=
  { title := "Calculator".data, description := "Works fine".data,
    category := "Electronics".data, condition := "Used".data,
    price := "500".data, imageUrl := [], sellerName := "Rahul".data,
    sellerPhone := "98765 43210".data }

/-! ## Supporting lemmas -/

/-- Dropping while a predicate that fails on every element leaves the
list unchanged. -/
theorem dropWhile_eq_self_of (p : Char → Bool) (l : List Char)
    (h : ∀ c ∈ l, p c = false) : l.dropWhile p = l := by
  cases l with
  | nil => rfl
  | cons a t => simp [List.dropWhile_cons, h a (List.mem_cons_self a t)]

/-- Trimming a list containing no whitespace leaves it unchanged. -/
theorem jsTrim_eq_self (l : List Char) (h : ∀ c ∈ l, isSpaceChar c = false) :
    jsTrim l = l := by
  unfold jsTrim
  rw [dropWhile_eq_self_of _ _ h, dropWhile_eq_self_of, List.reverse_reverse]
  intro c hc
  exact h c (List.mem_reverse.mp hc)

/-- Every character surviving `stripNonDigits` is a digit. -/
theorem mem_stripNonDigits {c : Char} {l : List Char} (h : c ∈ stripNonDigits l) :
    isDigitChar c = true :=
  (List.mem_filter.mp h).2

/-- `dropLeadingZeros` only removes characters. -/
theorem mem_dropLeadingZeros {c : Char} {l : List Char} (h : c ∈ dropLeadingZeros l) :
    c ∈ l :=
  (List.dropWhile_sublist _).subset h

/-- None of the four whitespace characters is a digit. -/
theorem space_not_digit (c : Char) (h : isSpaceChar c = true) : isDigitChar c = false := by
  simp only [isSpaceChar, Bool.or_eq_true, decide_eq_true_eq] at h
  rcases h with ⟨⟨h | h⟩ | h⟩ | h <;> subst h <;> decide

/-- Digits are not whitespace. -/
theorem isDigitChar_not_space {c : Char} (h : isDigitChar c = true) :
    isSpaceChar c = false := by
  cases hs : isSpaceChar c with
  | false => rfl
  | true => rw [space_not_digit c hs] at h; cases h

/-- `stripNonDigits` fixes all-digit lists. -/
theorem stripNonDigits_of_digits (l : List Char) (h : ∀ c ∈ l, isDigitChar c = true) :
    stripNonDigits l = l :=
  List.filter_eq_self.mpr h

/-- A `'+'` followed by digits is a fixed point of `normalizePhone`,
whatever the country code: such an input trims to itself, takes the
`startsWith('+')` branch, and keeps exactly its digits. -/
theorem normalizePhone_plus_digits (cc : List Char) (d : List Char)
    (hd : ∀ c ∈ d, isDigitChar c = true) :
    normalizePhone cc ('+' :: d) = '+' :: d := by
  have hns : ∀ c ∈ ('+' :: d), isSpaceChar c = false := by
    intro c hc
    rcases List.mem_cons.mp hc with rfl | hc
    · decide
    · exact isDigitChar_not_space (hd c hc)
  have ht : jsTrim ('+' :: d) = '+' :: d := jsTrim_eq_self _ hns
  have hf : stripNonDigits ('+' :: d) = d := by
    unfold stripNonDigits
    rw [List.filter_cons]
    simp only [show isDigitChar '+' = false by decide, Bool.false_eq_true,
      not_false_iff, ite_false]
    exact stripNonDigits_of_digits d hd
  unfold normalizePhone
  rw [ht, hf]
  simp [startsWithPlus]

/-- When the country code is `'+'` followed by digits, every output of
`normalizePhone` is either empty or `'+'` followed by digits. -/
theorem normalizePhone_shape (cc : List Char) (t : List Char) (hcc : cc = '+' :: t)
    (ht : ∀ c ∈ t, isDigitChar c = true) (s : List Char) :
    normalizePhone cc s = [] ∨
      ∃ d, normalizePhone cc s = '+' :: d ∧ ∀ c ∈ d, isDigitChar c = true := by
  unfold normalizePhone
  split
  · exact Or.inl rfl
  · split
    · exact Or.inr ⟨_, rfl, fun c hc => mem_stripNonDigits hc⟩
    · split
      · exact Or.inr ⟨_, rfl, fun c hc => mem_stripNonDigits (mem_dropLeadingZeros hc)⟩
      · refine Or.inr ⟨t ++ dropLeadingZeros (stripNonDigits (jsTrim s)), by rw [hcc]; rfl, ?_⟩
        intro c hc
        rcases List.mem_append.mp hc with h | h
        · exact ht c h
        · exact mem_stripNonDigits (mem_dropLeadingZeros h)

/-- `normalizePhone` is idempotent for any country code of the form `'+'`
followed by digits. -/
theorem normalizePhone_idem_of (cc t : List Char) (hcc : cc = '+' :: t)
    (ht : ∀ c ∈ t, isDigitChar c = true) (s : List Char) :
    normalizePhone cc (normalizePhone cc s) = normalizePhone cc s := by
  rcases normalizePhone_shape cc t hcc ht s with h | ⟨d, h, hd⟩
  · rw [h]; rfl
  · rw [h]
    exact normalizePhone_plus_digits cc d hd

/-- `normalizePhone` is idempotent for every selectable country code. -/
theorem normalizePhone_idem_mem (cc : List Char) (h : cc ∈ countryCodes) (s : List Char) :
    normalizePhone cc (normalizePhone cc s) = normalizePhone cc s := by
  simp only [countryCodes, List.mem_cons, List.not_mem_nil, or_false] at h
  rcases h with rfl | rfl | rfl | rfl | rfl <;>
    exact normalizePhone_idem_of _ _ rfl (by decide) s

/-- The source and the spec wording agree whenever removing the first
`'+'` of the country code coincides with removing a leading `'+'`. -/
theorem normalizePhone_eq_spec_of (cc : List Char)
    (h : removeFirstPlus cc = dropLeadingPlus cc) (s : List Char) :
    normalizePhone cc s = normalizePhoneSpecModel cc s := by
  unfold normalizePhone normalizePhoneSpecModel
  rw [h]

/-! ## Claim theorems -/

/-- C1: the claim states that an authenticated caller's insert into
`products` is permitted if and only if the inserted row's `owner_id`
equals the caller's own id. Under the policy set actually produced by the
two migrations this is false: the first migration's policy "Anyone can
create products" (`for insert with check (true)`, no `to` clause) is
never dropped by the second migration, so an insert whose `owner_id` is a
*different* account, and one whose `owner_id` is null, are both permitted.
This theorem evaluates the policy set at those failing inputs. -/
theorem insert_mismatched_owner_permitted :
    allowInsert productPolicies (Caller.authenticated 1)
      { cols := sampleWrite, owner_id := some 2 } = true ∧
    allowInsert productPolicies (Caller.authenticated 1)
      { cols := sampleWrite, owner_id := none } = true := by
  exact ⟨by decide, by decide⟩

/-- C2: the claim states that the record the sell form hands to the
storage layer includes the current session's account id as `owner_id`.
In fact the object `handleSubmit` passes to
`supabase.from('products').insert([...])` has no `owner_id` key at all,
so the stored row's `owner_id` is null and in particular differs from
every session's account id. -/
theorem sell_insert_owner_missing (cc : List Char) (f : FormFields)
    (u : Option (List Char)) (sessionUid : Uuid) :
    (sellInsertRow cc f u).owner_id = none ∧
    (sellInsertRow cc f u).owner_id ≠ some sessionUid :=
  ⟨rfl, by simp [sellInsertRow]⟩

/-- C3: for every authenticated caller and all rows, an update is
permitted by the policy set exactly when the existing row's `owner_id`
and the updated row's `owner_id` both equal the caller's account id — the
single update policy requires `owner_id = auth.uid()` both as its
`using` and its `with check` condition. In particular a non-owner's
update, and an update moving `owner_id` away from the caller, are
rejected, while an owner's owner-preserving update passes. -/
theorem update_policy_owner_iff (u : Uuid) (oldRow newRow : ProductRow) :
    allowUpdate productPolicies (Caller.authenticated u) oldRow newRow = true ↔
      (oldRow.owner_id = some u ∧ newRow.owner_id = some u) := by
  obtain ⟨oc, oo⟩ := oldRow
  obtain ⟨nc, no⟩ := newRow
  cases oo <;> cases no <;>
    simp [allowUpdate, productPolicies, applyMigration2, migration1Policies,
      dropPolicyIfExists, roleApplies, evalExpr]

/-- C4: a row whose `owner_id` is null is never updatable: for every
caller, authenticated or not, and every attempted new row, the policy set
rejects the update, because the only update policy's `using` condition
`owner_id = auth.uid()` cannot pass on a null `owner_id`. -/
theorem null_owner_never_updatable (c : Caller) (cols : ProductWrite)
    (newRow : ProductRow) :
    allowUpdate productPolicies c { cols := cols, owner_id := none } newRow = false := by
  cases c <;>
    simp [allowUpdate, productPolicies, applyMigration2, migration1Policies,
      dropPolicyIfExists, roleApplies, evalExpr]

/-- C5: the claim states that unauthenticated callers are rejected for
every operation. Under the policy set actually in force this is false:
the first migration's "Anyone can view products" and "Anyone can create
products" policies carry no `to` clause, apply to every role, and are
never dropped, so an unauthenticated select and an unauthenticated insert
are permitted (update and delete are indeed rejected). -/
theorem anon_select_insert_permitted :
    allowSelect productPolicies Caller.anon
      { cols := sampleWrite, owner_id := some 1 } = true ∧
    allowInsert productPolicies Caller.anon
      { cols := sampleWrite, owner_id := none } = true ∧
    (∀ newRow, allowUpdate productPolicies Caller.anon
      { cols := sampleWrite, owner_id := some 1 } newRow = false) ∧
    allowDelete productPolicies Caller.anon
      { cols := sampleWrite, owner_id := some 1 } = false := by
  refine ⟨by decide, by decide, ?_, by decide⟩
  intro newRow
  simp [allowUpdate, productPolicies, applyMigration2, migration1Policies,
    dropPolicyIfExists, roleApplies, evalExpr]

/-- C6: for every selectable country code and every raw input, the
source's `normalizePhone` computes exactly what the specification's
five-step algorithm describes (trim and keep empty; a `+`-prefixed value
keeps `+` plus its digits in order; otherwise digits are extracted,
leading zeros stripped, and `+` or the full country code is prepended
according to whether the digits already start with the code's digits).
`normalizePhoneSpecModel` is the verbatim rendering of the
specification's wording. -/
theorem normalizePhone_follows_spec (cc : List Char) (h : cc ∈ countryCodes)
    (s : List Char) : normalizePhone cc s = normalizePhoneSpecModel cc s := by
  simp only [countryCodes, List.mem_cons, List.not_mem_nil, or_false] at h
  rcases h with rfl | rfl | rfl | rfl | rfl <;>
    exact normalizePhone_eq_spec_of _ (by decide) s

/-- Witness for C6: at country code `+91` and input `09876543210` the
source function and the spec algorithm coincide and both produce
`+919876543210`, the spec's own example. -/
theorem normalizePhone_follows_spec_witness :
    ("+91".data ∈ countryCodes) ∧
      normalizePhone "+91".data "09876543210".data =
        normalizePhoneSpecModel "+91".data "09876543210".data ∧
      normalizePhone "+91".data "09876543210".data = "+919876543210".data :=
  ⟨by decide, normalizePhone_follows_spec "+91".data (by decide) "09876543210".data,
    by decide⟩

/-- C7 counterexample: the edit modal's save payload carries the form's
seller phone verbatim. The concrete edit form state `editFormExample`
holds the phone "98765 43210", which the save payload stores unchanged,
and which is not equal to its own normalization under the default
country code `+91` — refuting the claim that every stored record's
seller phone is in normalized form. -/
theorem edit_save_phone_unnormalized :
    (editSaveWrite editFormExample).seller_phone = "98765 43210".data ∧
    (editSaveWrite editFormExample).seller_phone ≠
      normalizePhone "+91".data (editSaveWrite editFormExample).seller_phone := by
  exact ⟨by decide, by decide⟩

/-- C7 as amended: a record written through the *sell form* has its
seller phone normalized — the payload stores exactly
`normalizePhone countryCode rawPhone`, which is a fixed point of
normalization — while a record written through the *edit modal* carries
the form's seller phone verbatim, with no normalization applied. -/
theorem seller_phone_normalization (cc : List Char) (h : cc ∈ countryCodes)
    (f g : FormFields) (u : Option (List Char)) :
    (sellInsertWrite cc f u).seller_phone = normalizePhone cc f.sellerPhone ∧
    normalizePhone cc (sellInsertWrite cc f u).seller_phone =
      (sellInsertWrite cc f u).seller_phone ∧
    (editSaveWrite g).seller_phone = g.sellerPhone :=
  ⟨rfl, normalizePhone_idem_mem cc h f.sellerPhone, rfl⟩

/-- Witness for the amended C7: concrete sell-form submission under
country code `+91`. -/
theorem seller_phone_normalization_witness :
    ("+91".data ∈ countryCodes) ∧
      (sellInsertWrite "+91".data editFormExample none).seller_phone =
        normalizePhone "+91".data editFormExample.sellerPhone :=
  ⟨by decide, (seller_phone_normalization "+91".data (by decide) editFormExample
      editFormExample none).1⟩

/-- C8: in the three-step sell wizard, backward navigation is always
permitted from any step greater than 1 (and there is no Back button at
step 1), and forward navigation is blocked — the click changes nothing —
exactly when the current step's required fields are not all non-empty:
at step 1 exactly when title, description, or category is empty, and at
step 2 exactly when price or condition is empty. -/
theorem step_navigation (f : FormFields) (cc : List Char) (img : Bool) (n : Nat) :
    clickBack ⟨n + 2, f, cc, img⟩ = ⟨n + 1, f, cc, img⟩ ∧
    clickBack ⟨1, f, cc, img⟩ = ⟨1, f, cc, img⟩ ∧
    (clickNext ⟨1, f, cc, img⟩ = ⟨2, f, cc, img⟩ ↔
      (f.title ≠ [] ∧ f.description ≠ [] ∧ f.category ≠ [])) ∧
    (clickNext ⟨1, f, cc, img⟩ = ⟨1, f, cc, img⟩ ↔
      (f.title = [] ∨ f.description = [] ∨ f.category = [])) ∧
    (clickNext ⟨2, f, cc, img⟩ = ⟨3, f, cc, img⟩ ↔
      (f.price ≠ [] ∧ f.condition ≠ [])) ∧
    (clickNext ⟨2, f, cc, img⟩ = ⟨2, f, cc, img⟩ ↔
      (f.price = [] ∨ f.condition = [])) := by
  refine ⟨?_, ?_, ?_, ?_, ?_, ?_⟩ <;>
    simp [clickBack, clickNext, nextDisabled, canProceedStep1, canProceedStep2,
      List.isEmpty_iff] <;> tauto

/-- C9: when the storage layer rejects a sell-form submission — whether
the image upload or the insert fails — the user sees a blocking alert,
the form state and step are unchanged, and the modal stays open for
retry; when the submission succeeds, the form state resets to its
defaults (empty fields, category "Books", condition "Used", country code
`+91`, no image file), the step returns to 1, and the modal closes. -/
theorem submit_outcome (s : SellState) (m : List Char) :
    handleSubmitResult s (StorageOutcome.insertFailed m) =
      { state := s, alertShown := true, modalClosed := false } ∧
    handleSubmitResult s (StorageOutcome.uploadFailed m) =
      { state := s, alertShown := true, modalClosed := false } ∧
    handleSubmitResult s StorageOutcome.succeeded =
      { state := ⟨1, defaultFormFields, "+91".data, false⟩,
        alertShown := false, modalClosed := true } :=
  ⟨rfl, rfl, rfl⟩

/-- C10: the phone normalization function is idempotent for every
selectable country code and every input string: normalizing an
already-normalized value changes nothing, so normalizing on input blur
and again on submit never duplicates the country code prefix. -/
theorem normalizePhone_idempotent (cc : List Char) (h : cc ∈ countryCodes)
    (s : List Char) :
    normalizePhone cc (normalizePhone cc s) = normalizePhone cc s :=
  normalizePhone_idem_mem cc h s

/-- Witness for C10: country code `+91`, input `09876-543 210`. -/
theorem normalizePhone_idempotent_witness :
    ("+91".data ∈ countryCodes) ∧
      normalizePhone "+91".data (normalizePhone "+91".data "09876-543 210".data) =
        normalizePhone "+91".data "09876-543 210".data :=
  ⟨by decide, normalizePhone_idempotent "+91".data (by decide) "09876-543 210".data⟩

end UniSwap
